import Mathlib

/-!
Verification of the streaming MFT record iterator (pymft-rs, `src/lib.rs`).

The development shallowly embeds the core of `src/lib.rs`:
the parser facade `PyMftParser` with its single-use table-handle hand-off
(`records_iterator`), and the stateful `PyMftEntriesIterator` with its
skip/render pull loop (`next`) and the three renderers
(`entry_to_pyobject`, `entry_to_json`, `entry_to_csv`).

External collaborators are embedded as oracles:
* the `mft` crate's record decoder (`MftParser::get_entry`) becomes a
  function `Nat → Except Nat MftEntry` stored in the handle (a decode error
  is an abstract `Nat` payload);
* the outcomes of the external serializers — `serde_json::to_string`,
  the `csv` writer's `serialize`/`into_inner` on `FlatMftEntryWithName`,
  and `PyMftEntry::from_mft_entry` — are recorded as `Option` fields of
  the decoded entry (`none` = that external call fails on this entry).

The Rust `loop` in `PyMftEntriesIterator::next` would run forever if
`current_record` ever exceeded `total_number_of_records`, so the pull is
embedded with explicit fuel; `none` marks fuel exhaustion (divergence) and
sufficiency of the fuel `total + 1 - current` is proved, not assumed.
-/

set_option autoImplicit false

namespace Pymft

/-- Modelled from the spec and the `mft` crate (outside `src/`):
`mft::entry::ZERO_HEADER`, the well-known four-zero-byte empty-slot
signature marker compared against `entry.header.signature`. -/
def ZERO_HEADER : List Nat := [0, 0, 0, 0]

/-- A decoded MFT record, as the iterator sees it.  `signature` mirrors
`entry.header.signature`; the `Option` fields are oracles for the external
renderer calls made on this entry (`none` = that call fails):
`json` for `serde_json::to_string(&entry)`, `csvRow` for
`writer.serialize(FlatMftEntryWithName::from_entry(..))` followed by
`writer.into_inner()` (both failure points merged), and `pyObj` for
`PyMftEntry::from_mft_entry`. -/
structure MftEntry where
  signature : List Nat
  json : Option String
  csvRow : Option (List String)
  pyObj : Option Nat
deriving DecidableEq

/-- The output mode of an iterator (`enum Output` in `src/lib.rs`). -/
inductive Output
  | Python
  | CSV
  | JSON
deriving DecidableEq

/-- The error payloads the binding turns into Python error objects or
raised exceptions. -/
inductive PyErrKind
  | decodeError (code : Nat)
  | jsonSerializationFailed
  | csvSerializationFailed
  | objectConversionFailed
  | alreadyConsumed
  | notInitialized
  | notImplemented
deriving DecidableEq

/-- The byte buffer emitted by one CSV render: the `csv` crate writes the
header row first when the writer was built with `has_headers(true)`, then
the data row.  `hasHeader` records whether the buffer contains the header
line. -/
structure CsvBuffer where
  hasHeader : Bool
  row : List String
deriving DecidableEq

/-- A value handed back to Python by one pull: a structured entry object,
a JSON string, a CSV byte buffer, or an error *object* (errors are
returned as values in sequence position, not raised). -/
inductive PyObject
  | entryObj (o : Nat)
  | jsonStr (s : String)
  | csvBytes (b : CsvBuffer)
  | errObj (e : PyErrKind)
deriving DecidableEq

/-- The table handle: `mft::MftParser` over its byte source.
`get_entry` is the opaque decoder oracle (indexed by slot),
`get_entry_count` the total record count derived from the table size. -/
structure MftParser where
  get_entry : Nat → Except Nat MftEntry
  get_entry_count : Nat

/-- The parser facade (`struct PyMftParser`): holds the table handle until
it is consumed by the first begin-iteration call. -/
structure PyMftParser where
  inner : Option MftParser

/-- The record iterator state (`struct PyMftEntriesIterator`). -/
structure PyMftEntriesIterator where
  inner : MftParser
  total_number_of_records : Nat
  current_record : Nat
  output_format : Output
  csv_header_written : Bool

/-- `PyMftParser::number_of_entries`: total entry count, or a runtime
error (`NotInitialized`) once the handle has been consumed. -/
def PyMftParser.number_of_entries (p : PyMftParser) : Except PyErrKind Nat :=
  match p.inner with
  | some inner => .ok inner.get_entry_count
  | none => .error .notInitialized

/-- `PyMftParser::records_iterator`: takes the handle out of the facade
(`self.inner.take()`); on the first call builds a fresh iterator
(`current_record = 0`, `csv_header_written = false`, chosen mode), on any
later call fails (`PyMftParser can only be used once`).  Returns the
result together with the post-call facade state. -/
def PyMftParser.records_iterator (p : PyMftParser) (output_format : Output) :
    Except PyErrKind PyMftEntriesIterator × PyMftParser :=
  match p.inner with
  | some inner =>
    (.ok { inner := inner
           total_number_of_records := inner.get_entry_count
           current_record := 0
           output_format := output_format
           csv_header_written := false },
     { inner := none })
  | none => (.error .alreadyConsumed, p)

/-- `PyMftParser::entries`. -/
def PyMftParser.entries (p : PyMftParser) :
    Except PyErrKind PyMftEntriesIterator × PyMftParser :=
  p.records_iterator Output.Python

/-- `PyMftParser::entries_json`. -/
def PyMftParser.entries_json (p : PyMftParser) :
    Except PyErrKind PyMftEntriesIterator × PyMftParser :=
  p.records_iterator Output.JSON

/-- `PyMftParser::entries_csv`. -/
def PyMftParser.entries_csv (p : PyMftParser) :
    Except PyErrKind PyMftEntriesIterator × PyMftParser :=
  p.records_iterator Output.CSV

/-- `PyIterProtocol::__iter__` for `PyMftParser`: delegates to
`entries()`. -/
def PyMftParser.dunderIter (p : PyMftParser) :
    Except PyErrKind PyMftEntriesIterator × PyMftParser :=
  p.entries

/-- `PyIterProtocol::__next__` for `PyMftParser`: always raises
`NotImplementedError`, whatever the facade state. -/
def PyMftParser.dunderNext (_p : PyMftParser) : Except PyErrKind (Option PyObject) :=
  .error .notImplemented

/-- `PyMftEntriesIterator::entry_to_pyobject`: converts the decode result
into a Python object, turning conversion failure or a decode error into an
error object returned as the value. -/
def PyMftEntriesIterator.entry_to_pyobject (it : PyMftEntriesIterator)
    (entry_result : Except Nat MftEntry) : PyObject × PyMftEntriesIterator :=
  match entry_result with
  | .ok entry =>
    match entry.pyObj with
    | some o => (.entryObj o, it)
    | none => (.errObj .objectConversionFailed, it)
  | .error e => (.errObj (.decodeError e), it)

/-- `PyMftEntriesIterator::entry_to_json`: `serde_json::to_string`, with
failure returned as an error object. -/
def PyMftEntriesIterator.entry_to_json (it : PyMftEntriesIterator)
    (entry_result : Except Nat MftEntry) : PyObject × PyMftEntriesIterator :=
  match entry_result with
  | .ok entry =>
    match entry.json with
    | some s => (.jsonStr s, it)
    | none => (.errObj .jsonSerializationFailed, it)
  | .error e => (.errObj (.decodeError e), it)

/-- `PyMftEntriesIterator::entry_to_csv`: builds a writer with
`has_headers(!csv_header_written)`, then — *before* serializing — sets
`csv_header_written` to `true`; serialization or `into_inner` failure is
returned as an error object, success as the byte buffer. -/
def PyMftEntriesIterator.entry_to_csv (it : PyMftEntriesIterator)
    (entry_result : Except Nat MftEntry) : PyObject × PyMftEntriesIterator :=
  let has_headers := !it.csv_header_written
  let it1 := if !it.csv_header_written then { it with csv_header_written := true } else it
  match entry_result with
  | .ok entry =>
    match entry.csvRow with
    | some row => (.csvBytes { hasHeader := has_headers, row := row }, it1)
    | none => (.errObj .csvSerializationFailed, it1)
  | .error e => (.errObj (.decodeError e), it1)

/-- The `match self.output_format` dispatch inside
`PyMftEntriesIterator::next`. -/
def PyMftEntriesIterator.render (it : PyMftEntriesIterator) (entry : MftEntry) :
    PyObject × PyMftEntriesIterator :=
  match it.output_format with
  | .Python => it.entry_to_pyobject (.ok entry)
  | .JSON => it.entry_to_json (.ok entry)
  | .CSV => it.entry_to_csv (.ok entry)

/-- The `loop` body of `PyMftEntriesIterator::next`, with explicit fuel
(`none` = fuel exhausted, i.e. the Rust loop would still be running).
Besides the pulled value (`none` = exhausted iterator) and the post
state, the result records the list of slot indices on which
`get_entry` was called during this pull, in call order. -/
def PyMftEntriesIterator.nextLoop :
    Nat → PyMftEntriesIterator → Option (Option PyObject × PyMftEntriesIterator × List Nat)
  | 0, _ => none
  | fuel + 1, it =>
    if it.current_record = it.total_number_of_records then
      some (none, it, [])
    else
      match it.inner.get_entry it.current_record with
      | .ok entry =>
        if entry.signature = ZERO_HEADER then
          match nextLoop fuel { it with current_record := it.current_record + 1 } with
          | some (v, it', ex) => some (v, it', it.current_record :: ex)
          | none => none
        else
          let r := it.render entry
          some (some r.1, { r.2 with current_record := r.2.current_record + 1 },
                [it.current_record])
      | .error e =>
        some (some (.errObj (.decodeError e)),
              { it with current_record := it.current_record + 1 },
              [it.current_record])

/-- `PyMftEntriesIterator::next` — one pull.  Fuel
`total_number_of_records + 1 - current_record` is enough whenever the
cursor invariant holds (proved below). -/
def PyMftEntriesIterator.next (it : PyMftEntriesIterator) :
    Option (Option PyObject × PyMftEntriesIterator × List Nat) :=
  PyMftEntriesIterator.nextLoop
    (it.total_number_of_records + 1 - it.current_record) it

/-- The observable outcome of a sequence of pulls: the pulled values in
order, all slots examined (in `get_entry`-call order), and the final
iterator state.  The trace stops early only on fuel exhaustion. -/
structure Trace where
  values : List (Option PyObject)
  examined : List Nat
  final : PyMftEntriesIterator

/-- Run `n` successive pulls. -/
def pulls : Nat → PyMftEntriesIterator → Trace
  | 0, it => ⟨[], [], it⟩
  | n + 1, it =>
    match it.next with
    | some (v, it', ex) =>
      let t := pulls n it'
      ⟨v :: t.values, ex ++ t.examined, t.final⟩
    | none => ⟨[], [], it⟩

/-- 1 when the pulled value is a CSV buffer containing the header line. -/
def headerCount1 : Option PyObject → Nat
  | some (.csvBytes b) => if b.hasHeader then 1 else 0
  | _ => 0

/-- Number of emitted buffers containing the header line. -/
def headerCount (vs : List (Option PyObject)) : Nat :=
  (vs.map headerCount1).sum

/-- Whether a pulled value came out of the CSV renderer (a buffer, or a
CSV serialization failure) — these are exactly the pulls that reach
`entry_to_csv` with a decoded record. -/
def csvRendered : Option PyObject → Bool
  | some (.csvBytes _) => true
  | some (.errObj .csvSerializationFailed) => true
  | _ => false

/-- The contiguous slot range `[c, c+n)`. -/
def slotRange : Nat → Nat → List Nat
  | _, 0 => []
  | c, n + 1 => c :: slotRange (c + 1) n

/-! ### Concrete tables used to instantiate the theorems -/

/-- A valid-signature (`FILE`) entry on which every renderer succeeds. -/
def goodEntry : MftEntry :=
  { signature := [70, 73, 76, 69], json := some "j1", csvRow := some ["r1"],
    pyObj := some 1 }

/-- A valid-signature entry whose CSV serialization fails (the `csv`
writer's `serialize` / `into_inner` errors on it). -/
def csvFailEntry : MftEntry :=
  { signature := [70, 73, 76, 69], json := some "j0", csvRow := none,
    pyObj := some 0 }

/-- A valid-signature entry on which every renderer fails. -/
def renderFailEntry : MftEntry :=
  { signature := [70, 73, 76, 69], json := none, csvRow := none, pyObj := none }

/-- An unallocated (zeroed) slot. -/
def zeroEntry : MftEntry :=
  { signature := ZERO_HEADER, json := some "jz", csvRow := some ["rz"],
    pyObj := some 9 }

/-- The spec's scenario table: slot 0 zeroed, slot 1 valid, slot 2 a
decode error. -/
def scenarioTable : MftParser :=
  { get_entry := fun i =>
      if i = 0 then .ok zeroEntry
      else if i = 1 then .ok goodEntry
      else .error 7
    get_entry_count := 3 }

/-- An Object-mode iterator over `scenarioTable` with its cursor at `k`. -/
def scenarioIterAt (k : Nat) : PyMftEntriesIterator :=
  { inner := scenarioTable, total_number_of_records := 3, current_record := k,
    output_format := Output.Python, csv_header_written := false }

/-- Slot 0 fails CSV serialization, slot 1 renders fine. -/
def csvFailTable : MftParser :=
  { get_entry := fun i => if i = 0 then .ok csvFailEntry else .ok goodEntry
    get_entry_count := 2 }

/-- A fresh CSV-mode iterator over `csvFailTable`. -/
def csvFailIter : PyMftEntriesIterator :=
  { inner := csvFailTable, total_number_of_records := 2, current_record := 0,
    output_format := Output.CSV, csv_header_written := false }

/-- A table whose every slot fails to decode. -/
def allErrorTable : MftParser :=
  { get_entry := fun i => .error i, get_entry_count := 2 }

/-- A fresh CSV-mode iterator over `allErrorTable`. -/
def allErrorCsvIter : PyMftEntriesIterator :=
  { inner := allErrorTable, total_number_of_records := 2, current_record := 0,
    output_format := Output.CSV, csv_header_written := false }

/-- A single-slot table whose entry decodes but defeats every renderer. -/
def renderFailTable : MftParser :=
  { get_entry := fun _ => .ok renderFailEntry, get_entry_count := 1 }

/-- A fresh iterator over `renderFailTable` in the given mode. -/
def renderFailIter (fmt : Output) : PyMftEntriesIterator :=
  { inner := renderFailTable, total_number_of_records := 1, current_record := 0,
    output_format := fmt, csv_header_written := false }

/-- An already-exhausted JSON-mode iterator. -/
def exhaustedIter : PyMftEntriesIterator :=
  { inner := scenarioTable, total_number_of_records := 3, current_record := 3,
    output_format := Output.JSON, csv_header_written := false }

/-- A facade still holding its table handle. -/
def freshParser : PyMftParser := { inner := some scenarioTable }

/-- A facade whose table handle has been consumed. -/
def consumedParser : PyMftParser := { inner := none }

/-! ### Basic facts about `slotRange` -/

theorem slotRange_length : ∀ (c n : Nat), (slotRange c n).length = n := by
  intro c n
  induction n generalizing c with
  | zero => rfl
  | succ n ih => simp [slotRange, ih]

theorem mem_slotRange_le : ∀ (n c x : Nat), x ∈ slotRange c n → c ≤ x := by
  intro n
  induction n with
  | zero => intro c x hx; simp [slotRange] at hx
  | succ n ih =>
    intro c x hx
    simp only [slotRange, List.mem_cons] at hx
    rcases hx with h | h
    · omega
    · have := ih (c + 1) x h
      omega

theorem slotRange_pairwise : ∀ (n c : Nat),
    List.Pairwise (fun a b => a < b) (slotRange c n) := by
  intro n
  induction n with
  | zero => intro c; simp [slotRange]
  | succ n ih =>
    intro c
    simp only [slotRange, List.pairwise_cons]
    refine ⟨fun x hx => ?_, ih (c + 1)⟩
    have := mem_slotRange_le n (c + 1) x hx
    omega

theorem slotRange_add : ∀ (a c b : Nat),
    slotRange c (a + b) = slotRange c a ++ slotRange (c + a) b := by
  intro a
  induction a with
  | zero => intro c b; simp [slotRange]
  | succ a ih =>
    intro c b
    have h1 : a + 1 + b = (a + b) + 1 := by omega
    rw [h1]
    show c :: slotRange (c + 1) (a + b)
        = (c :: slotRange (c + 1) a) ++ slotRange (c + (a + 1)) b
    rw [ih (c + 1) b]
    have h2 : c + 1 + a = c + (a + 1) := by omega
    rw [h2]
    rfl

/-! ### One-pull structure lemmas -/

theorem render_preserves (it : PyMftEntriesIterator) (entry : MftEntry) :
    (it.render entry).2.current_record = it.current_record ∧
    (it.render entry).2.total_number_of_records = it.total_number_of_records ∧
    (it.render entry).2.inner = it.inner ∧
    (it.render entry).2.output_format = it.output_format := by
  cases hf : it.output_format <;>
    simp only [PyMftEntriesIterator.render, PyMftEntriesIterator.entry_to_pyobject,
      PyMftEntriesIterator.entry_to_json, PyMftEntriesIterator.entry_to_csv, hf]
  · cases entry.pyObj <;> simp [hf]
  · cases entry.csvRow <;> cases hw : it.csv_header_written <;> simp [hw, hf]
  · cases entry.json <;> simp [hf]

/-- State and examined-slot structure of a single completed pull: the
cursor does not decrease, the total / handle / mode are untouched, the
cursor bound is preserved, and the examined slots are exactly the
contiguous range from the old cursor to the new one. -/
theorem nextLoop_spec : ∀ (fuel : Nat) (it : PyMftEntriesIterator)
    (v : Option PyObject) (it' : PyMftEntriesIterator) (ex : List Nat),
    PyMftEntriesIterator.nextLoop fuel it = some (v, it', ex) →
    it.current_record ≤ it'.current_record ∧
    it'.total_number_of_records = it.total_number_of_records ∧
    it'.inner = it.inner ∧
    it'.output_format = it.output_format ∧
    (it.current_record ≤ it.total_number_of_records →
      it'.current_record ≤ it.total_number_of_records) ∧
    ex = slotRange it.current_record (it'.current_record - it.current_record) := by
  intro fuel
  induction fuel with
  | zero => intro it v it' ex h; simp [PyMftEntriesIterator.nextLoop] at h
  | succ fuel ih =>
    intro it v it' ex h
    rw [PyMftEntriesIterator.nextLoop] at h
    by_cases hc : it.current_record = it.total_number_of_records
    · rw [if_pos hc] at h
      simp only [Option.some.injEq, Prod.mk.injEq] at h
      obtain ⟨hv, hit, hex⟩ := h
      subst hit
      subst hex
      refine ⟨le_refl _, rfl, rfl, rfl, fun h => h, ?_⟩
      simp [slotRange]
    · rw [if_neg hc] at h
      cases hg : it.inner.get_entry it.current_record with
      | ok entry =>
        rw [hg] at h
        dsimp only at h
        by_cases hs : entry.signature = ZERO_HEADER
        · rw [if_pos hs] at h
          cases hr : PyMftEntriesIterator.nextLoop fuel
              { it with current_record := it.current_record + 1 } with
          | none => rw [hr] at h; simp at h
          | some r =>
            obtain ⟨v0, it0, ex0⟩ := r
            rw [hr] at h
            simp only [Option.some.injEq, Prod.mk.injEq] at h
            obtain ⟨hv, hit, hex⟩ := h
            subst hv
            subst hit
            subst hex
            obtain ⟨ha, hb, hc2, hd, he, hf⟩ := ih _ v0 it0 ex0 hr
            simp only at ha hb hc2 hd he hf
            have hcur : it.current_record + 1 ≤ it0.current_record := ha
            refine ⟨by omega, hb, hc2, hd, fun hle => he (by omega), ?_⟩
            have h3 : it0.current_record - it.current_record
                = (it0.current_record - (it.current_record + 1)) + 1 := by omega
            rw [h3]
            simp only [slotRange]
            rw [hf]
        · rw [if_neg hs] at h
          simp only [Option.some.injEq, Prod.mk.injEq] at h
          obtain ⟨hv, hit, hex⟩ := h
          subst hv
          subst hit
          subst hex
          obtain ⟨h1, h2, h3, h4⟩ := render_preserves it entry
          refine ⟨by simp [h1], by simp [h2], by simp [h3], by simp [h4],
            fun hle => by simp [h1]; omega, ?_⟩
          have h5 : ({ (it.render entry).2 with
              current_record := (it.render entry).2.current_record + 1 }).current_record
              - it.current_record = 1 := by simp [h1]
          rw [h5]
          simp [slotRange]
      | error e =>
        rw [hg] at h
        dsimp only at h
        simp only [Option.some.injEq, Prod.mk.injEq] at h
        obtain ⟨hv, hit, hex⟩ := h
        subst hv
        subst hit
        subst hex
        refine ⟨by simp, by simp, by simp, by simp,
          fun hle => by simp; omega, ?_⟩
        have h5 : ({ it with current_record := it.current_record + 1 }).current_record
            - it.current_record = 1 := by simp
        rw [h5]
        simp [slotRange]

/-- `nextLoop_spec` specialized to `next`. -/
theorem next_spec (it : PyMftEntriesIterator) (v : Option PyObject)
    (it' : PyMftEntriesIterator) (ex : List Nat)
    (h : it.next = some (v, it', ex)) :
    it.current_record ≤ it'.current_record ∧
    it'.total_number_of_records = it.total_number_of_records ∧
    it'.inner = it.inner ∧
    it'.output_format = it.output_format ∧
    (it.current_record ≤ it.total_number_of_records →
      it'.current_record ≤ it.total_number_of_records) ∧
    ex = slotRange it.current_record (it'.current_record - it.current_record) :=
  nextLoop_spec _ it v it' ex h

/-- Fuel `total + 1 - current` suffices: under the cursor invariant the
skip loop terminates within the remaining slot count. -/
theorem nextLoop_isSome : ∀ (fuel : Nat) (it : PyMftEntriesIterator),
    it.current_record ≤ it.total_number_of_records →
    it.total_number_of_records + 1 - it.current_record ≤ fuel →
    (PyMftEntriesIterator.nextLoop fuel it).isSome := by
  intro fuel
  induction fuel with
  | zero => intro it h hf; omega
  | succ fuel ih =>
    intro it h hf
    rw [PyMftEntriesIterator.nextLoop]
    by_cases hc : it.current_record = it.total_number_of_records
    · rw [if_pos hc]; rfl
    · rw [if_neg hc]
      cases hg : it.inner.get_entry it.current_record with
      | ok entry =>
        dsimp only
        by_cases hs : entry.signature = ZERO_HEADER
        · rw [if_pos hs]
          have hrec := ih { it with current_record := it.current_record + 1 }
            (by simp; omega) (by simp; omega)
          cases hr : PyMftEntriesIterator.nextLoop fuel
              { it with current_record := it.current_record + 1 } with
          | none => rw [hr] at hrec; simp at hrec
          | some r =>
            obtain ⟨v, it', ex⟩ := r
            rfl
        · rw [if_neg hs]; rfl
      | error e => rfl

/-! ### Trace-level structure lemmas -/

/-- Across any number of pulls the cursor is non-decreasing and bounded,
the total / handle / mode are immutable, and the examined slots form the
contiguous range from the starting cursor to the final one. -/
theorem pulls_spec : ∀ (n : Nat) (it : PyMftEntriesIterator),
    it.current_record ≤ (pulls n it).final.current_record ∧
    (pulls n it).final.total_number_of_records = it.total_number_of_records ∧
    (pulls n it).final.inner = it.inner ∧
    (pulls n it).final.output_format = it.output_format ∧
    (it.current_record ≤ it.total_number_of_records →
      (pulls n it).final.current_record ≤ it.total_number_of_records) ∧
    (pulls n it).examined
      = slotRange it.current_record
          ((pulls n it).final.current_record - it.current_record) := by
  intro n
  induction n with
  | zero =>
    intro it
    refine ⟨le_refl _, rfl, rfl, rfl, fun h => h, ?_⟩
    simp [pulls, slotRange]
  | succ n ih =>
    intro it
    rw [pulls]
    cases hn : it.next with
    | none =>
      refine ⟨le_refl _, rfl, rfl, rfl, fun h => h, ?_⟩
      simp [slotRange]
    | some r =>
      obtain ⟨v, it1, ex⟩ := r
      obtain ⟨ha, hb, hc, hd, he, hf⟩ := next_spec it v it1 ex hn
      obtain ⟨ta, tb, tc, td, te, tf⟩ := ih it1
      dsimp only
      refine ⟨le_trans ha ta, by rw [tb, hb], by rw [tc, hc], by rw [td, hd],
        fun hle => ?_, ?_⟩
      · have h1 := he hle
        have h2 := te (by omega)
        omega
      · rw [hf, tf]
        have h3 : (pulls n it1).final.current_record - it.current_record
            = (it1.current_record - it.current_record)
              + ((pulls n it1).final.current_record - it1.current_record) := by omega
        rw [h3, slotRange_add]
        have h4 : it.current_record + (it1.current_record - it.current_record)
            = it1.current_record := by omega
        rw [h4]

/-! ### CSV header bookkeeping lemmas -/

theorem headerCount_nil : headerCount [] = 0 := rfl

theorem headerCount_cons (v : Option PyObject) (vs : List (Option PyObject)) :
    headerCount (v :: vs) = headerCount1 v + headerCount vs := by
  simp [headerCount]

theorem headerCount1_le_one : ∀ (v : Option PyObject), headerCount1 v ≤ 1 := by
  intro v
  cases v with
  | none => simp [headerCount1]
  | some o =>
    cases o with
    | csvBytes b => simp [headerCount1]; split <;> omega
    | entryObj o => simp [headerCount1]
    | jsonStr s => simp [headerCount1]
    | errObj e => simp [headerCount1]

theorem headerCount1_eq_zero_of_not_rendered (v : Option PyObject)
    (h : csvRendered v = false) : headerCount1 v = 0 := by
  cases v with
  | none => rfl
  | some o =>
    cases o with
    | csvBytes b => simp [csvRendered] at h
    | entryObj o => rfl
    | jsonStr s => rfl
    | errObj e => rfl

/-- In CSV mode one completed pull leaves the header flag at
`old flag OR (this pull reached the CSV renderer)` — the flag is advanced
exactly by the pulls that hand a successfully decoded record to
`entry_to_csv`, whether or not serialization then succeeds. -/
theorem nextLoop_csv_flag : ∀ (fuel : Nat) (it : PyMftEntriesIterator)
    (v : Option PyObject) (it' : PyMftEntriesIterator) (ex : List Nat),
    it.output_format = Output.CSV →
    PyMftEntriesIterator.nextLoop fuel it = some (v, it', ex) →
    it'.csv_header_written = (it.csv_header_written || csvRendered v) := by
  intro fuel
  induction fuel with
  | zero => intro it v it' ex hm h; simp [PyMftEntriesIterator.nextLoop] at h
  | succ fuel ih =>
    intro it v it' ex hm h
    rw [PyMftEntriesIterator.nextLoop] at h
    by_cases hc : it.current_record = it.total_number_of_records
    · rw [if_pos hc] at h
      simp only [Option.some.injEq, Prod.mk.injEq] at h
      obtain ⟨hv, hit, hex⟩ := h
      subst hv
      subst hit
      simp [csvRendered]
    · rw [if_neg hc] at h
      cases hg : it.inner.get_entry it.current_record with
      | ok entry =>
        rw [hg] at h
        dsimp only at h
        by_cases hs : entry.signature = ZERO_HEADER
        · rw [if_pos hs] at h
          cases hr : PyMftEntriesIterator.nextLoop fuel
              { it with current_record := it.current_record + 1 } with
          | none => rw [hr] at h; simp at h
          | some r =>
            obtain ⟨v0, it0, ex0⟩ := r
            rw [hr] at h
            simp only [Option.some.injEq, Prod.mk.injEq] at h
            obtain ⟨hv, hit, hex⟩ := h
            subst hv
            subst hit
            have hrec := ih _ v0 it0 ex0 (by simp [hm]) hr
            simpa using hrec
        · rw [if_neg hs] at h
          simp only [Option.some.injEq, Prod.mk.injEq] at h
          obtain ⟨hv, hit, hex⟩ := h
          subst hv
          subst hit
          simp only [PyMftEntriesIterator.render, hm, PyMftEntriesIterator.entry_to_csv]
          cases hw : it.csv_header_written <;>
            cases hcsv : entry.csvRow <;>
            simp [hw, hcsv, csvRendered]
      | error e =>
        rw [hg] at h
        dsimp only at h
        simp only [Option.some.injEq, Prod.mk.injEq] at h
        obtain ⟨hv, hit, hex⟩ := h
        subst hv
        subst hit
        simp [csvRendered]

/-- A pulled buffer contains the header line exactly when the flag was
still unset when the pull began. -/
theorem nextLoop_buffer_header : ∀ (fuel : Nat) (it : PyMftEntriesIterator)
    (b : CsvBuffer) (it' : PyMftEntriesIterator) (ex : List Nat),
    PyMftEntriesIterator.nextLoop fuel it
      = some (some (PyObject.csvBytes b), it', ex) →
    b.hasHeader = !it.csv_header_written := by
  intro fuel
  induction fuel with
  | zero => intro it b it' ex h; simp [PyMftEntriesIterator.nextLoop] at h
  | succ fuel ih =>
    intro it b it' ex h
    rw [PyMftEntriesIterator.nextLoop] at h
    by_cases hc : it.current_record = it.total_number_of_records
    · rw [if_pos hc] at h
      simp at h
    · rw [if_neg hc] at h
      cases hg : it.inner.get_entry it.current_record with
      | ok entry =>
        rw [hg] at h
        dsimp only at h
        by_cases hs : entry.signature = ZERO_HEADER
        · rw [if_pos hs] at h
          cases hr : PyMftEntriesIterator.nextLoop fuel
              { it with current_record := it.current_record + 1 } with
          | none => rw [hr] at h; simp at h
          | some r =>
            obtain ⟨v0, it0, ex0⟩ := r
            rw [hr] at h
            simp only [Option.some.injEq, Prod.mk.injEq] at h
            obtain ⟨hv, hit, hex⟩ := h
            subst hv
            have hrec := ih _ b it0 ex0 hr
            simpa using hrec
        · rw [if_neg hs] at h
          simp only [Option.some.injEq, Prod.mk.injEq] at h
          obtain ⟨hv, hit, hex⟩ := h
          cases hf : it.output_format <;>
            simp only [PyMftEntriesIterator.render, hf,
              PyMftEntriesIterator.entry_to_pyobject, PyMftEntriesIterator.entry_to_json,
              PyMftEntriesIterator.entry_to_csv] at hv
          · cases hp : entry.pyObj <;> rw [hp] at hv <;> simp at hv
          · cases hcsv : entry.csvRow <;> rw [hcsv] at hv <;> simp at hv
            subst hv
            rfl
          · cases hj : entry.json <;> rw [hj] at hv <;> simp at hv
      | error e =>
        rw [hg] at h
        dsimp only at h
        simp at h

/-- Once the header flag is set, no later pull emits a buffer containing
the header line. -/
theorem headerCount_of_written : ∀ (n : Nat) (it : PyMftEntriesIterator),
    it.output_format = Output.CSV → it.csv_header_written = true →
    headerCount (pulls n it).values = 0 := by
  intro n
  induction n with
  | zero => intro it hm hw; simp [pulls, headerCount]
  | succ n ih =>
    intro it hm hw
    rw [pulls]
    cases hn : it.next with
    | none => simp [headerCount]
    | some r =>
      obtain ⟨v, it1, ex⟩ := r
      have hflag := nextLoop_csv_flag _ it v it1 ex hm hn
      rw [hw] at hflag
      simp only [Bool.true_or] at hflag
      have hout := (next_spec it v it1 ex hn).2.2.2.1
      have hv : headerCount1 v = 0 := by
        cases v with
        | none => rfl
        | some o =>
          cases o with
          | csvBytes b =>
            have hb := nextLoop_buffer_header _ it b it1 ex hn
            rw [hw] at hb
            simp [headerCount1, hb]
          | entryObj o => rfl
          | jsonStr s => rfl
          | errObj e => rfl
      dsimp only
      rw [headerCount_cons, hv, ih it1 (by rw [hout, hm]) hflag]

/-- From any CSV-mode state, a pull trace emits at most one buffer
containing the header line — none at all when the flag is already set. -/
theorem headerCount_le : ∀ (n : Nat) (it : PyMftEntriesIterator),
    it.output_format = Output.CSV →
    headerCount (pulls n it).values ≤ if it.csv_header_written then 0 else 1 := by
  intro n
  induction n with
  | zero => intro it hm; simp [pulls, headerCount]
  | succ n ih =>
    intro it hm
    cases hw : it.csv_header_written with
    | true =>
      rw [if_pos rfl, headerCount_of_written (n + 1) it hm hw]
    | false =>
      rw [if_neg (by simp)]
      rw [pulls]
      cases hn : it.next with
      | none => simp [headerCount]
      | some r =>
        obtain ⟨v, it1, ex⟩ := r
        have hflag := nextLoop_csv_flag _ it v it1 ex hm hn
        rw [hw] at hflag
        simp only [Bool.false_or] at hflag
        have hout := (next_spec it v it1 ex hn).2.2.2.1
        dsimp only
        rw [headerCount_cons]
        cases hcr : csvRendered v with
        | true =>
          have h0 := headerCount_of_written n it1 (by rw [hout, hm])
            (by rw [hflag, hcr])
          rw [h0]
          have := headerCount1_le_one v
          omega
        | false =>
          have hv0 := headerCount1_eq_zero_of_not_rendered v hcr
          have hrest := ih it1 (by rw [hout, hm])
          rw [hflag, hcr] at hrest
          rw [if_neg (by simp)] at hrest
          omega

/-- With an all-decode-error table, a completed pull returns either
"exhausted" or a decode-error value. -/
theorem nextLoop_all_error (fuel : Nat) (it : PyMftEntriesIterator)
    (v : Option PyObject) (it' : PyMftEntriesIterator) (ex : List Nat)
    (hall : ∀ i, ∃ d, it.inner.get_entry i = Except.error d)
    (h : PyMftEntriesIterator.nextLoop fuel it = some (v, it', ex)) :
    v = none ∨ ∃ d, v = some (PyObject.errObj (PyErrKind.decodeError d)) := by
  cases fuel with
  | zero => simp [PyMftEntriesIterator.nextLoop] at h
  | succ fuel =>
    rw [PyMftEntriesIterator.nextLoop] at h
    by_cases hc : it.current_record = it.total_number_of_records
    · rw [if_pos hc] at h
      simp only [Option.some.injEq, Prod.mk.injEq] at h
      exact Or.inl h.1.symm
    · rw [if_neg hc] at h
      obtain ⟨d, hd⟩ := hall it.current_record
      rw [hd] at h
      dsimp only at h
      simp only [Option.some.injEq, Prod.mk.injEq] at h
      exact Or.inr ⟨d, h.1.symm⟩

/-- With an all-decode-error table no pull trace ever emits a buffer
containing the header line. -/
theorem headerCount_all_error : ∀ (n : Nat) (it : PyMftEntriesIterator),
    (∀ i, ∃ d, it.inner.get_entry i = Except.error d) →
    headerCount (pulls n it).values = 0 := by
  intro n
  induction n with
  | zero => intro it hall; simp [pulls, headerCount]
  | succ n ih =>
    intro it hall
    rw [pulls]
    cases hn : it.next with
    | none => simp [headerCount]
    | some r =>
      obtain ⟨v, it1, ex⟩ := r
      have hv : headerCount1 v = 0 := by
        rcases nextLoop_all_error _ it v it1 ex hall hn with h | ⟨d, h⟩ <;>
          subst h <;> rfl
      have hinner := (next_spec it v it1 ex hn).2.2.1
      dsimp only
      rw [headerCount_cons, hv, ih it1 (by rw [hinner]; exact hall)]

/-- A pull on an iterator whose cursor equals the total returns
"exhausted" with the state untouched and no slot examined. -/
theorem next_exhausted (it : PyMftEntriesIterator)
    (h : it.current_record = it.total_number_of_records) :
    it.next = some (none, it, []) := by
  rw [PyMftEntriesIterator.next, h]
  have h1 : it.total_number_of_records + 1 - it.total_number_of_records = 0 + 1 := by
    omega
  rw [h1, PyMftEntriesIterator.nextLoop, if_pos h]

/-! ### The claims -/

/-- C2: for every iterator whose cursor has reached the total record
count, every subsequent pull returns "exhausted" (`none`, not an error)
and changes no iterator state: any number of repeated pulls yields only
`none`s, examines no slot, and leaves the state exactly as it was. -/
theorem exhausted_pulls_idempotent (it : PyMftEntriesIterator) (n : Nat)
    (h : it.current_record = it.total_number_of_records) :
    pulls n it = ⟨List.replicate n none, [], it⟩ := by
  induction n with
  | zero => rfl
  | succ n ih =>
    rw [pulls, next_exhausted it h]
    dsimp only
    rw [ih]
    rfl

/-- Witness for C2 on a concrete exhausted iterator. -/
theorem exhausted_pulls_idempotent_witness :
    pulls 3 exhaustedIter = ⟨List.replicate 3 none, [], exhaustedIter⟩ :=
  exhausted_pulls_idempotent exhaustedIter 3 rfl

/-- C3: on a facade still holding its table handle, any of the
begin-iteration operations moves the handle into a fresh iterator
(`current_record = 0`, `csv_header_written = false`, chosen mode, total
snapshotted from the handle), and every later begin-iteration call on
that facade fails with `AlreadyConsumed`, leaving the facade unchanged;
`entries` / `entries_json` / `entries_csv` are exactly `records_iterator`
at the three modes (the returned iterator is a value the facade holds no
reference to, so the failed second call cannot affect it). -/
theorem single_use_handoff (p : PyMftParser) (inner : MftParser)
    (fmt fmt2 : Output) (h : p.inner = some inner) :
    p.records_iterator fmt
      = (.ok { inner := inner
               total_number_of_records := inner.get_entry_count
               current_record := 0
               output_format := fmt
               csv_header_written := false },
         { inner := none }) ∧
    ((p.records_iterator fmt).2.records_iterator fmt2).1
      = .error PyErrKind.alreadyConsumed ∧
    ((p.records_iterator fmt).2.records_iterator fmt2).2
      = (p.records_iterator fmt).2 ∧
    p.entries = p.records_iterator Output.Python ∧
    p.entries_json = p.records_iterator Output.JSON ∧
    p.entries_csv = p.records_iterator Output.CSV := by
  rcases p with ⟨pi⟩
  dsimp only at h
  subst h
  exact ⟨rfl, rfl, rfl, rfl, rfl, rfl⟩

/-- Witness for C3 on a concrete fresh facade. -/
theorem single_use_handoff_witness :
    freshParser.records_iterator Output.CSV
      = (.ok { inner := scenarioTable
               total_number_of_records := scenarioTable.get_entry_count
               current_record := 0
               output_format := Output.CSV
               csv_header_written := false },
         { inner := none }) ∧
    ((freshParser.records_iterator Output.CSV).2.records_iterator Output.JSON).1
      = .error PyErrKind.alreadyConsumed := by
  have h := single_use_handoff freshParser scenarioTable Output.CSV Output.JSON rfl
  exact ⟨h.1, h.2.1⟩

/-- C6: across any pulls, `current_record` is non-decreasing (per pull
and over a whole trace), never exceeds `total_number_of_records`, and
`total_number_of_records` is the snapshot `get_entry_count` taken at
iterator creation and is modified by no pull. -/
theorem cursor_monotone_total_snapshot (it : PyMftEntriesIterator) (n : Nat)
    (inner : MftParser) (fmt : Output)
    (h : it.current_record ≤ it.total_number_of_records) :
    (∀ v it' ex, it.next = some (v, it', ex) →
       it.current_record ≤ it'.current_record ∧
       it'.current_record ≤ it'.total_number_of_records ∧
       it'.total_number_of_records = it.total_number_of_records) ∧
    it.current_record ≤ (pulls n it).final.current_record ∧
    (pulls n it).final.current_record
      ≤ (pulls n it).final.total_number_of_records ∧
    (pulls n it).final.total_number_of_records = it.total_number_of_records ∧
    ((PyMftParser.mk (some inner)).records_iterator fmt).1
      = .ok { inner := inner
              total_number_of_records := inner.get_entry_count
              current_record := 0
              output_format := fmt
              csv_header_written := false } := by
  obtain ⟨ta, tb, tc, td, te, tf⟩ := pulls_spec n it
  refine ⟨fun v it' ex hn => ?_, ta, ?_, tb, rfl⟩
  · obtain ⟨ha, hb, _, _, he, _⟩ := next_spec it v it' ex hn
    exact ⟨ha, by rw [hb]; exact he h, hb⟩
  · rw [tb]
    exact te h

/-- Witness for C6 on a concrete iterator. -/
theorem cursor_monotone_total_snapshot_witness :
    (scenarioIterAt 0).current_record
      ≤ (pulls 2 (scenarioIterAt 0)).final.current_record ∧
    (pulls 2 (scenarioIterAt 0)).final.total_number_of_records
      = (scenarioIterAt 0).total_number_of_records := by
  have h := cursor_monotone_total_snapshot (scenarioIterAt 0) 2 scenarioTable
    Output.Python (by decide)
  exact ⟨h.2.1, h.2.2.2.1⟩

/-- C7: across any sequence of pulls the examined slots are exactly the
contiguous range from the starting cursor to the final cursor — strictly
increasing, each slot at most once, no slot beyond the one that decided
skip-vs-emit — and iterating from a fresh cursor examines at most
`total_number_of_records` slots. -/
theorem visit_order_strictly_increasing (it : PyMftEntriesIterator) (n : Nat)
    (h : it.current_record ≤ it.total_number_of_records) :
    (pulls n it).examined
      = slotRange it.current_record
          ((pulls n it).final.current_record - it.current_record) ∧
    List.Pairwise (fun a b => a < b) (pulls n it).examined ∧
    (pulls n it).examined.length
      ≤ it.total_number_of_records - it.current_record ∧
    (it.current_record = 0 →
      (pulls n it).examined.length ≤ it.total_number_of_records) := by
  obtain ⟨ta, tb, tc, td, te, tf⟩ := pulls_spec n it
  have hlen : (pulls n it).examined.length
      = (pulls n it).final.current_record - it.current_record := by
    rw [tf, slotRange_length]
  have hb := te h
  refine ⟨tf, ?_, ?_, fun h0 => ?_⟩
  · rw [tf]
    exact slotRange_pairwise _ _
  · omega
  · omega

/-- Witness for C7 on a concrete iterator. -/
theorem visit_order_strictly_increasing_witness :
    (pulls 2 (scenarioIterAt 0)).examined
      = slotRange (scenarioIterAt 0).current_record
          ((pulls 2 (scenarioIterAt 0)).final.current_record
            - (scenarioIterAt 0).current_record) ∧
    (pulls 2 (scenarioIterAt 0)).examined.length
      ≤ (scenarioIterAt 0).total_number_of_records := by
  have h := visit_order_strictly_increasing (scenarioIterAt 0) 2 (by decide)
  exact ⟨h.1, h.2.2.2 rfl⟩

/-- C8: `number_of_entries` returns the total entry count while the
facade still holds its handle, and fails with `NotInitialized` once the
handle has been consumed by a begin-iteration call. -/
theorem record_count_contract (p : PyMftParser) (inner : MftParser)
    (fmt : Output) :
    (p.inner = none → p.number_of_entries = .error PyErrKind.notInitialized) ∧
    (p.inner = some inner → p.number_of_entries = .ok inner.get_entry_count) ∧
    (p.inner = some inner →
      (p.records_iterator fmt).2.number_of_entries
        = .error PyErrKind.notInitialized) := by
  rcases p with ⟨pi⟩
  refine ⟨fun h => ?_, fun h => ?_, fun h => ?_⟩ <;>
    (dsimp only at h; subst h; rfl)

/-- Witness for C8 on concrete facades. -/
theorem record_count_contract_witness :
    freshParser.number_of_entries = .ok 3 ∧
    consumedParser.number_of_entries = .error PyErrKind.notInitialized ∧
    (freshParser.records_iterator Output.Python).2.number_of_entries
      = .error PyErrKind.notInitialized := by
  have h1 := record_count_contract freshParser scenarioTable Output.Python
  have h2 := record_count_contract consumedParser scenarioTable Output.Python
  exact ⟨h1.2.1 rfl, h2.1 rfl, h1.2.2 rfl⟩

/-- C9: every single pull terminates: under the cursor invariant the skip
loop strictly increases the cursor on each retry and is bounded by the
total, so fuel `total + 1 - current` — and any larger fuel — always
completes (`isSome`), even on a table of nothing but zeroed slots. -/
theorem pull_terminates (it : PyMftEntriesIterator)
    (h : it.current_record ≤ it.total_number_of_records) :
    it.next.isSome ∧
    ∀ fuel, it.total_number_of_records + 1 - it.current_record ≤ fuel →
      (PyMftEntriesIterator.nextLoop fuel it).isSome :=
  ⟨nextLoop_isSome _ it h (le_refl _), fun fuel hf => nextLoop_isSome fuel it h hf⟩

/-- Witness for C9 on a concrete all-zeroed table. -/
theorem pull_terminates_witness :
    ({ inner := { get_entry := fun _ => .ok zeroEntry, get_entry_count := 4 }
       total_number_of_records := 4
       current_record := 0
       output_format := Output.CSV
       csv_header_written := false } : PyMftEntriesIterator).next.isSome :=
  (pull_terminates _ (by decide)).1

/-- C10: the facade's `__iter__` is exactly `entries()` — it consumes the
handle into an Object-mode iterator, so a later `entries_csv` /
`entries_json` fails with `AlreadyConsumed` — while `__next__` on the
facade always fails with `NotImplementedError`, whatever the facade
state. -/
theorem iter_protocol_refinement (p : PyMftParser) (inner : MftParser) :
    p.dunderIter = p.entries ∧
    p.dunderIter = p.records_iterator Output.Python ∧
    (p.inner = some inner →
      ∃ it0, (p.dunderIter).1 = .ok it0 ∧ it0.output_format = Output.Python ∧
        ((p.dunderIter).2.entries_csv).1 = .error PyErrKind.alreadyConsumed ∧
        ((p.dunderIter).2.entries_json).1 = .error PyErrKind.alreadyConsumed) ∧
    p.dunderNext = .error PyErrKind.notImplemented := by
  refine ⟨rfl, rfl, fun h => ?_, rfl⟩
  rcases p with ⟨pi⟩
  dsimp only at h
  subst h
  exact ⟨_, rfl, rfl, rfl, rfl⟩

/-- Witness for C10 on a concrete facade. -/
theorem iter_protocol_refinement_witness :
    freshParser.dunderNext = .error PyErrKind.notImplemented ∧
    ((freshParser.dunderIter).2.entries_csv).1
      = .error PyErrKind.alreadyConsumed := by
  obtain ⟨h1, h2, h3, h4⟩ := iter_protocol_refinement freshParser scenarioTable
  obtain ⟨it0, hok, hfmt, hcsv, hjson⟩ := h3 rfl
  exact ⟨h4, hcsv⟩

/-- C4: a slot that decodes to the empty-slot signature is silently
skipped inside the same pull: the pull's value, post state (including the
CSV header flag) and remaining examined slots are exactly those of the
iterator starting just past the slot, so the slot contributes nothing to
any output and only its own index to the examined list. -/
theorem zero_slot_skipped (it : PyMftEntriesIterator) (entry : MftEntry)
    (v : Option PyObject) (it' : PyMftEntriesIterator) (ex : List Nat)
    (hlt : it.current_record < it.total_number_of_records)
    (hdec : it.inner.get_entry it.current_record = .ok entry)
    (hsig : entry.signature = ZERO_HEADER)
    (hn : PyMftEntriesIterator.next
        { it with current_record := it.current_record + 1 } = some (v, it', ex)) :
    it.next = some (v, it', it.current_record :: ex) := by
  rw [PyMftEntriesIterator.next] at hn
  rw [PyMftEntriesIterator.next]
  have h1 : it.total_number_of_records + 1 - it.current_record
      = (it.total_number_of_records - it.current_record) + 1 := by omega
  rw [h1, PyMftEntriesIterator.nextLoop, if_neg (Nat.ne_of_lt hlt), hdec]
  dsimp only
  rw [if_pos hsig]
  have h2 : ({ it with current_record := it.current_record + 1 }
        : PyMftEntriesIterator).total_number_of_records + 1
      - ({ it with current_record := it.current_record + 1 }
        : PyMftEntriesIterator).current_record
      = it.total_number_of_records - it.current_record := by
    dsimp only
    omega
  rw [h2] at hn
  rw [hn]

/-- Witness for C4 on the scenario table (slot 0 zeroed, slot 1 valid). -/
theorem zero_slot_skipped_witness :
    (scenarioIterAt 0).next
      = some (some (PyObject.entryObj 1), scenarioIterAt 2, [0, 1]) := by
  have hn : PyMftEntriesIterator.next
      { scenarioIterAt 0 with
        current_record := (scenarioIterAt 0).current_record + 1 }
      = some (some (PyObject.entryObj 1), scenarioIterAt 2, [1]) := rfl
  exact zero_slot_skipped (scenarioIterAt 0) zeroEntry
    (some (PyObject.entryObj 1)) (scenarioIterAt 2) [1] (by decide) rfl rfl hn

/-- C5: a decode error, and a rendering failure in any of the three
modes, are returned as the pulled value for that slot (not raised, not
`none`), the cursor moves one slot forward, and the next pull starts at
the following slot; in CSV mode the failed render still leaves the header
flag set. -/
theorem per_slot_errors_nonfatal (it : PyMftEntriesIterator) (entry : MftEntry)
    (d : Nat) (hlt : it.current_record < it.total_number_of_records) :
    (it.inner.get_entry it.current_record = .error d →
      it.next = some (some (.errObj (.decodeError d)),
        { it with current_record := it.current_record + 1 },
        [it.current_record])) ∧
    (it.inner.get_entry it.current_record = .ok entry →
      entry.signature ≠ ZERO_HEADER → it.output_format = Output.JSON →
      entry.json = none →
      it.next = some (some (.errObj .jsonSerializationFailed),
        { it with current_record := it.current_record + 1 },
        [it.current_record])) ∧
    (it.inner.get_entry it.current_record = .ok entry →
      entry.signature ≠ ZERO_HEADER → it.output_format = Output.Python →
      entry.pyObj = none →
      it.next = some (some (.errObj .objectConversionFailed),
        { it with current_record := it.current_record + 1 },
        [it.current_record])) ∧
    (it.inner.get_entry it.current_record = .ok entry →
      entry.signature ≠ ZERO_HEADER → it.output_format = Output.CSV →
      entry.csvRow = none →
      it.next = some (some (.errObj .csvSerializationFailed),
        { it with current_record := it.current_record + 1,
                  csv_header_written := true },
        [it.current_record])) := by
  have h1 : it.total_number_of_records + 1 - it.current_record
      = (it.total_number_of_records - it.current_record) + 1 := by omega
  refine ⟨fun hdec => ?_, fun hdec hsig hmode hj => ?_,
    fun hdec hsig hmode hp => ?_, fun hdec hsig hmode hcv => ?_⟩
  · rw [PyMftEntriesIterator.next, h1, PyMftEntriesIterator.nextLoop,
      if_neg (Nat.ne_of_lt hlt), hdec]
  · simp only [PyMftEntriesIterator.next, h1, PyMftEntriesIterator.nextLoop,
      if_neg (Nat.ne_of_lt hlt), hdec, if_neg hsig, PyMftEntriesIterator.render,
      hmode, PyMftEntriesIterator.entry_to_json, hj]
  · simp only [PyMftEntriesIterator.next, h1, PyMftEntriesIterator.nextLoop,
      if_neg (Nat.ne_of_lt hlt), hdec, if_neg hsig, PyMftEntriesIterator.render,
      hmode, PyMftEntriesIterator.entry_to_pyobject, hp]
  · cases hw : it.csv_header_written <;>
      simp only [PyMftEntriesIterator.next, h1, PyMftEntriesIterator.nextLoop,
        if_neg (Nat.ne_of_lt hlt), hdec, if_neg hsig, PyMftEntriesIterator.render,
        hmode, PyMftEntriesIterator.entry_to_csv, hcv, hw, Bool.not_false,
        Bool.not_true, if_pos, if_neg]
    simp [hw, hmode]

/-- Witness for C5: a decode-error slot and render-failure slots in each
of the three modes, on concrete tables. -/
theorem per_slot_errors_nonfatal_witness :
    (scenarioIterAt 2).next
      = some (some (.errObj (.decodeError 7)),
        { scenarioIterAt 2 with
          current_record := (scenarioIterAt 2).current_record + 1 },
        [(scenarioIterAt 2).current_record]) ∧
    (renderFailIter Output.JSON).next
      = some (some (.errObj .jsonSerializationFailed),
        { renderFailIter Output.JSON with
          current_record := (renderFailIter Output.JSON).current_record + 1 },
        [(renderFailIter Output.JSON).current_record]) ∧
    (renderFailIter Output.Python).next
      = some (some (.errObj .objectConversionFailed),
        { renderFailIter Output.Python with
          current_record := (renderFailIter Output.Python).current_record + 1 },
        [(renderFailIter Output.Python).current_record]) ∧
    (renderFailIter Output.CSV).next
      = some (some (.errObj .csvSerializationFailed),
        { renderFailIter Output.CSV with
          current_record := (renderFailIter Output.CSV).current_record + 1,
          csv_header_written := true },
        [(renderFailIter Output.CSV).current_record]) := by
  refine ⟨?_, ?_, ?_, ?_⟩
  · exact (per_slot_errors_nonfatal (scenarioIterAt 2) goodEntry 7 (by decide)).1 rfl
  · exact (per_slot_errors_nonfatal (renderFailIter Output.JSON) renderFailEntry 0
      (by decide)).2.1 rfl (by decide) rfl rfl
  · exact (per_slot_errors_nonfatal (renderFailIter Output.Python) renderFailEntry 0
      (by decide)).2.2.1 rfl (by decide) rfl rfl
  · exact (per_slot_errors_nonfatal (renderFailIter Output.CSV) renderFailEntry 0
      (by decide)).2.2.2 rfl (by decide) rfl rfl

/-- C1 counterexample: on `csvFailTable` (slot 0 decodes but fails CSV
serialization, slot 1 renders fine) the first pull returns a
serialization error yet sets `csv_header_written`, so the one successful
render (slot 1) carries no header and the exhausted run emits zero — not
exactly one — buffers containing the header line, refuting the claim that
the flag is advanced only by the first successful render. -/
theorem csv_header_counterexample :
    (pulls 1 csvFailIter).values
      = [some (PyObject.errObj PyErrKind.csvSerializationFailed)] ∧
    (pulls 1 csvFailIter).final.csv_header_written = true ∧
    (pulls 2 csvFailIter).values
      = [some (PyObject.errObj PyErrKind.csvSerializationFailed),
         some (PyObject.csvBytes { hasHeader := false, row := ["r1"] })] ∧
    headerCount (pulls 2 csvFailIter).values = 0 ∧
    (pulls 2 csvFailIter).final.current_record
      = csvFailIter.total_number_of_records := by
  exact ⟨rfl, rfl, rfl, rfl, rfl⟩

/-- C1 (amended): in CSV mode the header flag is advanced exactly by the
pulls that reach the CSV renderer with a successfully decoded, non-skipped
record — whether or not serialization then succeeds — and never by a
decode-error pull, an exhausted pull, or a skipped zeroed slot; an emitted
buffer contains the header line iff the flag was still unset when its pull
began, so at most one buffer of any trace contains the header (none once
the flag is set), and an all-decode-error table emits zero header lines. -/
theorem csv_header_emission_amended (it : PyMftEntriesIterator) (n : Nat)
    (hmode : it.output_format = Output.CSV) :
    (∀ v it' ex, it.next = some (v, it', ex) →
       it'.csv_header_written = (it.csv_header_written || csvRendered v)) ∧
    (∀ b it' ex, it.next = some (some (PyObject.csvBytes b), it', ex) →
       b.hasHeader = !it.csv_header_written) ∧
    headerCount (pulls n it).values ≤ (if it.csv_header_written then 0 else 1) ∧
    ((∀ i, ∃ d, it.inner.get_entry i = Except.error d) →
       headerCount (pulls n it).values = 0) :=
  ⟨fun v it' ex hn => nextLoop_csv_flag _ it v it' ex hmode hn,
   fun b it' ex hn => nextLoop_buffer_header _ it b it' ex hn,
   headerCount_le n it hmode,
   fun hall => headerCount_all_error n it hall⟩

/-- Witness for the amended C1 on concrete CSV iterators. -/
theorem csv_header_emission_amended_witness :
    headerCount (pulls 2 csvFailIter).values
      ≤ (if csvFailIter.csv_header_written then 0 else 1) ∧
    headerCount (pulls 2 allErrorCsvIter).values = 0 := by
  refine ⟨(csv_header_emission_amended csvFailIter 2 rfl).2.2.1, ?_⟩
  exact (csv_header_emission_amended allErrorCsvIter 2 rfl).2.2.2
    (fun i => ⟨i, rfl⟩)

end Pymft
